import Mathlib

/-!
Verification development for the Push2D repository.

The definitions below are a shallow embedding of the Python sources:

* `src/push_2d/reward.py`   — the reward factories (quadrant predicates,
  red/green circle lookup, the twelve reward variants);
* `src/push_2d/component.py` — `Space` (tick = rasterize-then-solve,
  `clear`) over an abstract solver, and the pymunk content model;
* `src/push_2d/core.py`     — `Push2D.step` / `reset` (action decoding,
  control-body velocity, observation, the returned tuple);
* `src/push2d_simulator/core.py` — `Simulator.replay` (span computation);
* `src/push_2d/wrapper.py`  — `Saver.save` (file index from directory
  count, `np.stack` on the in-memory buffers).

Machine floats of the Python code are modelled as exact rationals `ℚ`;
the solver, the rasterizer and the filesystem are external collaborators
and are kept abstract (type parameters / counters), exactly at the
boundary where the sources call into pymunk, pygame and numpy.
-/

set_option autoImplicit false

namespace Push2D

/-- A 2-D vector with rational coordinates (model of `pymunk.Vec2d`). -/
structure Vec2 where
  x : ℚ
  y : ℚ
  deriving DecidableEq, Repr

/-- Componentwise scaling `Vec2d * scalar` as used in `core.py`. -/
def Vec2.smul (v : Vec2) (c : ℚ) : Vec2 :=
  ⟨v.x * c, v.y * c⟩

/-- RGBA color (model of `pygame.Color`). -/
structure Color where
  r : ℕ
  g : ℕ
  b : ℕ
  a : ℕ
  deriving DecidableEq, Repr

/-- The color `pygame.Color("red")`, equal to (255, 0, 0, 255). -/
def Color.red : Color := ⟨255, 0, 0, 255⟩

/-- The color `pygame.Color("green")`, equal to (0, 255, 0, 255). -/
def Color.green : Color := ⟨0, 255, 0, 255⟩

/-- The color `pygame.Color("black")`, equal to (0, 0, 0, 255). -/
def Color.black : Color := ⟨0, 0, 0, 255⟩

/-- Dataclass `SpaceParameters` from `types.py`: width, height, fps, color. -/
structure SpaceParameters where
  width : ℚ
  height : ℚ
  fps : ℚ
  color : Color
  deriving DecidableEq, Repr

/-- Dataclass `CircleParameters` from `types.py`: radius, position, color, velocity. -/
structure CircleParameters where
  radius : ℚ
  position : Vec2
  color : Color
  velocity : ℚ
  deriving DecidableEq, Repr

/-- The `info` dict built by `Push2D._get_info` in `core.py`:
keys `"space"`, `"agent"`, `"obstacles"`. -/
structure Info where
  space : SpaceParameters
  agent : CircleParameters
  obstacles : List CircleParameters
  deriving DecidableEq, Repr

/-- A Python exception surfaced by the embedded code. -/
inductive Err where
  /-- Python `IndexError` (e.g. `info["obstacles"][0]` on an empty list). -/
  | indexError : Err
  /-- Python `ValueError` (e.g. `np.stack` on an empty sequence). -/
  | valueError : Err
  /-- pymunk assertion: removing an object that is not in the space. -/
  | notInSpace : Err
  deriving DecidableEq, Repr

/-! ## Reward factories (`src/push_2d/reward.py`) -/

namespace AbstractRewardFactory

/-- Method `AbstractRewardFactory.get_reward`: always returns `1.0`. -/
def get_reward (_ : Info) : Except Err ℚ :=
  .ok 1

end AbstractRewardFactory

namespace AbstractRedAndGreenRewardFactory

/-- Class attribute `margin = 30`. -/
def margin : ℚ := 30

/-- Predicate `circle_is_left`: `x_position < circle_parameters.radius + cls.margin`
(the space parameters are unused, as in the source). -/
def circle_is_left (c : CircleParameters) (_ : SpaceParameters) : Bool :=
  c.position.x < c.radius + margin

/-- Predicate `circle_is_right`: `x_position > space_parameters.width - (radius + margin)`. -/
def circle_is_right (c : CircleParameters) (sp : SpaceParameters) : Bool :=
  c.position.x > sp.width - (c.radius + margin)

/-- Predicate `circle_is_top`: `y_position < circle_parameters.radius + cls.margin`. -/
def circle_is_top (c : CircleParameters) (_ : SpaceParameters) : Bool :=
  c.position.y < c.radius + margin

/-- Predicate `circle_is_bottom`: `y_position > space_parameters.height - (radius + margin)`. -/
def circle_is_bottom (c : CircleParameters) (sp : SpaceParameters) : Bool :=
  c.position.y > sp.height - (c.radius + margin)

/-- Predicate `circle_is_top_left`: conjunction of `circle_is_top` and `circle_is_left`. -/
def circle_is_top_left (c : CircleParameters) (sp : SpaceParameters) : Bool :=
  circle_is_top c sp && circle_is_left c sp

/-- Predicate `circle_is_top_right`: conjunction of `circle_is_top` and `circle_is_right`. -/
def circle_is_top_right (c : CircleParameters) (sp : SpaceParameters) : Bool :=
  circle_is_top c sp && circle_is_right c sp

/-- Predicate `circle_is_bottom_left`: conjunction of `circle_is_bottom` and `circle_is_left`. -/
def circle_is_bottom_left (c : CircleParameters) (sp : SpaceParameters) : Bool :=
  circle_is_bottom c sp && circle_is_left c sp

/-- Predicate `circle_is_bottom_right`: conjunction of `circle_is_bottom` and `circle_is_right`. -/
def circle_is_bottom_right (c : CircleParameters) (sp : SpaceParameters) : Bool :=
  circle_is_bottom c sp && circle_is_right c sp

/-- The `for obstacle in info["obstacles"]` scan of `get_red_circle` /
`get_green_circle`: first obstacle whose color equals `col`. -/
def findByColor (col : Color) : List CircleParameters → Option CircleParameters
  | [] => none
  | o :: rest => if o.color = col then some o else findByColor col rest

/-- Fallback `info["obstacles"][0]`: raises `IndexError` on an empty list. -/
def firstObstacle : List CircleParameters → Except Err CircleParameters
  | [] => .error .indexError
  | o :: _ => .ok o

/-- Lookup `get_red_circle`: first red obstacle, else `info["obstacles"][0]`. -/
def get_red_circle (info : Info) : Except Err CircleParameters :=
  match findByColor Color.red info.obstacles with
  | some o => .ok o
  | none => firstObstacle info.obstacles

/-- Lookup `get_green_circle`: first green obstacle, else `info["obstacles"][0]`. -/
def get_green_circle (info : Info) : Except Err CircleParameters :=
  match findByColor Color.green info.obstacles with
  | some o => .ok o
  | none => firstObstacle info.obstacles

/-- The accumulation `reward = 0.0; if c1: reward += 0.5; if c2: reward += 0.5`
shared by every variant's `get_reward`. -/
def accumulate (c1 c2 : Bool) : ℚ :=
  let reward : ℚ := 0
  let reward := if c1 then reward + 1/2 else reward
  let reward := if c2 then reward + 1/2 else reward
  reward

end AbstractRedAndGreenRewardFactory

open AbstractRedAndGreenRewardFactory in
/-- The twelve concrete reward factories of `reward.py`, each carrying the
pair of corner predicates its `get_reward` applies to the red circle and to
the green circle (in the source's evaluation order). -/
inductive RewardVariant where
  | topRightRedTopLeftGreen
  | topLeftGreenTopRightRed
  | topLeftRedBottomLeftGreen
  | topLeftGreenBottomLeftRed
  | topLeftRedBottomRightGreen
  | topLeftGreenBottomRightRed
  | rightTopRedRightBottomGreen
  | rightTopGreenRightBottomGreen
  | topRightRedBottomLeftGreen
  | topRightGreenBottomLeftRed
  | bottomLeftRedBottomRightGreen
  | bottomLeftGreenBottomRightRed
  deriving DecidableEq, Repr

namespace RewardVariant

open AbstractRedAndGreenRewardFactory

/-- The corner predicate each variant applies to the red circle. -/
def redCond : RewardVariant → CircleParameters → SpaceParameters → Bool
  | topRightRedTopLeftGreen => circle_is_top_left
  | topLeftGreenTopRightRed => circle_is_top_right
  | topLeftRedBottomLeftGreen => circle_is_top_left
  | topLeftGreenBottomLeftRed => circle_is_bottom_left
  | topLeftRedBottomRightGreen => circle_is_top_left
  | topLeftGreenBottomRightRed => circle_is_bottom_right
  | rightTopRedRightBottomGreen => circle_is_top_right
  | rightTopGreenRightBottomGreen => circle_is_bottom_right
  | topRightRedBottomLeftGreen => circle_is_top_right
  | topRightGreenBottomLeftRed => circle_is_bottom_left
  | bottomLeftRedBottomRightGreen => circle_is_bottom_left
  | bottomLeftGreenBottomRightRed => circle_is_bottom_right

/-- The corner predicate each variant applies to the green circle. -/
def greenCond : RewardVariant → CircleParameters → SpaceParameters → Bool
  | topRightRedTopLeftGreen => circle_is_top_right
  | topLeftGreenTopRightRed => circle_is_top_left
  | topLeftRedBottomLeftGreen => circle_is_bottom_left
  | topLeftGreenBottomLeftRed => circle_is_top_left
  | topLeftRedBottomRightGreen => circle_is_bottom_right
  | topLeftGreenBottomRightRed => circle_is_top_left
  | rightTopRedRightBottomGreen => circle_is_bottom_right
  | rightTopGreenRightBottomGreen => circle_is_top_right
  | topRightRedBottomLeftGreen => circle_is_bottom_left
  | topRightGreenBottomLeftRed => circle_is_top_right
  | bottomLeftRedBottomRightGreen => circle_is_bottom_right
  | bottomLeftGreenBottomRightRed => circle_is_bottom_left

/-- Method `get_reward` of a concrete variant: look up the red and the green circle
(`get_red_circle` / `get_green_circle`, both of which propagate the
`IndexError` of the empty-obstacles fallback), evaluate the variant's two
corner predicates against `info["space"]`, and accumulate `0.5` per
condition met starting from `0.0`. -/
def get_reward (v : RewardVariant) (info : Info) : Except Err ℚ := do
  let red_circle ← get_red_circle info
  let green_circle ← get_green_circle info
  let redMet := v.redCond red_circle info.space
  let greenMet := v.greenCond green_circle info.space
  .ok (accumulate redMet greenMet)

end RewardVariant

/-! ## Simulation space (`src/push_2d/component.py`) -/

/-- State of a `Space` as seen by `component.py`: the configuration fields
set in `__init__`, the physical content `phys` owned by the external solver
(pymunk), and the screen contents owned by the external renderer (pygame). -/
structure SpaceState (P F : Type) where
  width : ℚ
  height : ℚ
  fps : ℚ
  color : Color
  phys : P
  screen : F

/-- Method `Space.render` from `component.py`, statements in source order:

1. `self.screen.fill(self.color)`, `self.debug_draw(self.draw_options)`,
   `pygame.display.flip()` — the external rasterizer `raster` rewrites the
   screen from the current physical content;
2. `self.step(1 / self.fps)` — the external solver `solve` advances the
   physical content by the fixed timestep `1 / fps`;
3. `self.clock.tick(self.fps)` — frame pacing only, it blocks the caller
   but changes no simulation state.
-/
def SpaceState.render {P F : Type} (solve : ℚ → P → P) (raster : P → F)
    (s : SpaceState P F) : SpaceState P F :=
  let s1 := { s with screen := raster s.phys }
  let s2 := { s1 with phys := solve (1 / s1.fps) s1.phys }
  s2

/-- A pymunk constraint, identified by the two body ids it binds. -/
structure Constraint where
  bodyA : ℕ
  bodyB : ℕ
  deriving DecidableEq, Repr

/-- A pymunk shape, identified by the body id it is attached to. -/
structure Shape where
  body : ℕ
  deriving DecidableEq, Repr

/-- The content of a `pymunk.Space`: the `bodies`, `constraints` and
`shapes` collections that `Space.clear` reads and removes from. -/
structure PhysSpace where
  bodies : List ℕ
  constraints : List Constraint
  shapes : List Shape
  deriving DecidableEq, Repr

namespace PhysSpace

/-- Operation `space.remove(*objs)` restricted to bodies: pymunk asserts that every
object passed is currently in the space, then removes it. -/
def removeBodies (s : PhysSpace) (bs : List ℕ) : Except Err PhysSpace :=
  if bs.all (fun b => decide (b ∈ s.bodies)) then
    .ok { s with bodies := s.bodies.filter (fun b => decide (b ∉ bs)) }
  else
    .error .notInSpace

/-- Operation `space.remove(*objs)` restricted to constraints. -/
def removeConstraints (s : PhysSpace) (cs : List Constraint) : Except Err PhysSpace :=
  if cs.all (fun c => decide (c ∈ s.constraints)) then
    .ok { s with constraints := s.constraints.filter (fun c => decide (c ∉ cs)) }
  else
    .error .notInSpace

/-- Operation `space.remove(*objs)` restricted to shapes. -/
def removeShapes (s : PhysSpace) (ss : List Shape) : Except Err PhysSpace :=
  if ss.all (fun sh => decide (sh ∈ s.shapes)) then
    .ok { s with shapes := s.shapes.filter (fun sh => decide (sh ∉ ss)) }
  else
    .error .notInSpace

/-- Method `Space.clear` from `component.py`:
`self.remove(*self.bodies)`, `self.remove(*self.constraints)`,
`self.remove(*self.shapes)`, each argument tuple read from the space at
the moment of its call. -/
def clear (s : PhysSpace) : Except Err PhysSpace := do
  let s1 ← s.removeBodies s.bodies
  let s2 ← s1.removeConstraints s1.constraints
  let s3 ← s2.removeShapes s2.shapes
  .ok s3

/-- The empty space content. -/
def empty : PhysSpace := ⟨[], [], []⟩

end PhysSpace

/-! ## Episode controller (`src/push_2d/core.py`) -/

/-- A four-binary-flag action `[up, down, left, right]`
(`action_space = MultiDiscrete([2, 2, 2, 2])`). -/
structure Act where
  up : ℤ
  down : ℤ
  left : ℤ
  right : ℤ
  deriving DecidableEq, Repr

/-- The underlying numpy vector of an action. -/
def Act.toList (a : Act) : List ℤ :=
  [a.up, a.down, a.left, a.right]

/-- A valid sample of `MultiDiscrete([2, 2, 2, 2])`: each flag is 0 or 1. -/
def Act.valid (a : Act) : Prop :=
  (a.up = 0 ∨ a.up = 1) ∧ (a.down = 0 ∨ a.down = 1) ∧
    (a.left = 0 ∨ a.left = 1) ∧ (a.right = 0 ∨ a.right = 1)

instance (a : Act) : Decidable a.valid := by
  unfold Act.valid; infer_instance

/-- The fixed direction table of `Push2D.step`:
`np.array([[0, -1], [0, 1], [-1, 0], [1, 0]])`. -/
def directions : List (List ℤ) :=
  [[0, -1], [0, 1], [-1, 0], [1, 0]]

/-- Function `np.dot(v, m)` for a length-4 integer vector and a 4×2 matrix:
the sum of the rows of `m` weighted by the entries of `v`. -/
def npDot (v : List ℤ) (m : List (List ℤ)) : List ℤ :=
  (List.zip v m).foldl
    (fun acc p => List.zipWith (· + ·) acc (p.2.map (p.1 * ·)))
    [0, 0]

/-- Unpacking `Vec2d(*l)` for the two components of the decoded action. -/
def vecOfList (l : List ℤ) : Vec2 :=
  ⟨(l.getD 0 0 : ℤ), (l.getD 1 0 : ℤ)⟩

/-- The velocity `Push2D.step` assigns to `self.agent.control_body`:
`Vec2d(*np.dot(action, directions)) * self.agent_params.velocity`. -/
def commandVelocity (a : Act) (speed : ℚ) : Vec2 :=
  (vecOfList (npDot a.toList directions)).smul speed

/-- The mutable state of a `Push2D` environment that `step` touches:
its `Space` and the agent's control body velocity; `agentVelocity` is the
configured speed `agent_params.velocity`. -/
structure EnvState (P F : Type) where
  space : SpaceState P F
  controlVelocity : Vec2
  agentVelocity : ℚ

/-- The 5-tuple returned by `Push2D.step`:
`(observation, reward, terminated, truncated, info)`. -/
structure StepOut (F : Type) where
  observation : F
  reward : ℚ
  terminated : Bool
  truncated : Bool
  info : Info
  deriving DecidableEq

/-- Method `Push2D.step` from `core.py`, statements in source order:

1. `_action = np.dot(action, directions)` and
   `self.agent.control_body.velocity = Vec2d(*_action) * velocity`;
2. `self.render()` — which calls `Space.render` (rasterize, then solve);
3. `observation = self._get_observation()` — reads the screen;
4. `terminated, truncated = False, False`;
5. `info = self._get_info()` — assembled from the solver state by the
   external collaborator `getInfo`;
6. `reward = self.reward_factory.get_reward(info)` — may raise, in which
   case the exception propagates after the state mutations already took
   effect.

Returns the mutated environment together with either the 5-tuple or the
propagated exception. -/
def step {P F : Type} (solve : ℚ → P → P) (raster : P → F)
    (getInfo : P → Info) (get_reward : Info → Except Err ℚ)
    (env : EnvState P F) (a : Act) :
    EnvState P F × Except Err (StepOut F) :=
  let env1 := { env with controlVelocity := commandVelocity a env.agentVelocity }
  let env2 := { env1 with space := env1.space.render solve raster }
  let observation := env2.space.screen
  let terminated := false
  let truncated := false
  let info := getInfo env2.space.phys
  match get_reward info with
  | .error e => (env2, .error e)
  | .ok reward => (env2, .ok ⟨observation, reward, terminated, truncated, info⟩)

/-- Method `Push2D.reset` from `core.py` after seeding: `self.space.clear()` plus
re-adding agent, obstacles and wall segments replace the physical content
(summarized by the external rebuild result `rebuilt`), then one
`self.render()`, then observation and info are read. -/
def reset {P F : Type} (solve : ℚ → P → P) (raster : P → F)
    (getInfo : P → Info) (rebuilt : P) (env : EnvState P F) :
    EnvState P F × F × Info :=
  let env1 := { env with space := { env.space with phys := rebuilt } }
  let env2 := { env1 with space := env1.space.render solve raster }
  let observation := env2.space.screen
  let info := getInfo env2.space.phys
  (env2, observation, info)

/-! ## Recorder / replayer
(`src/push2d_simulator/core.py` and `src/push_2d/wrapper.py`) -/

namespace Simulator

/-- Method `Simulator.replay(action)` from `push2d_simulator/core.py`:
`span = self.cfg.screen.fps // self.cfg.save.fps`, then
`for _ in range(span): rollout(...); self.space.step()` — the given action
is applied on each of the `span` consecutive solver ticks. The result is
the list of actions applied, one entry per executed solver tick. -/
def replay (physics_fps save_fps : ℕ) (action : Vec2) : List Vec2 :=
  let span := physics_fps / save_fps
  (List.range span).map (fun _ => action)

/-- Replaying a recorded sequence (`src/src/test.py`:
`for i in a: env.replay(i)`): the concatenated per-tick applied actions. -/
def replaySeq (physics_fps save_fps : ℕ) (actions : List Vec2) : List Vec2 :=
  (actions.map (replay physics_fps save_fps)).flatten

end Simulator

namespace Saver

/-- Function `np.stack`: raises `ValueError` on an empty sequence, otherwise returns
the stacked array (modelled by the list of its rows). -/
def npStack {A : Type} : List A → Except Err (List A)
  | [] => .error .valueError
  | x :: xs => .ok (x :: xs)

/-- Observable outcome of one `Saver.save()` call: the number of persisted
capture files in the target directory afterwards, how many files the call
wrote, the index it used if the write completed, whether an exception
propagated, and the in-memory buffers after the call. -/
structure SaveResult (A O : Type) where
  dirFiles : ℕ
  filesWritten : ℕ
  savedIndex : Option ℕ
  raised : Bool
  actions : List A
  observations : List O
  deriving DecidableEq, Repr

/-- Method `Saver.save` from `push_2d/wrapper.py`, with the target directory
modelled by the count `dirFiles` of capture files it currently holds
(the files this function itself writes are exactly the ones its glob
pattern `*_[0-9]*.npy` counts):

* `num = len(glob.glob(...)) // 2`;
* `np.save(action_path, np.stack(self.actions))` — `np.stack` is evaluated
  before the file is written, so an empty buffer raises with no file
  persisted and the buffers left intact;
* `np.save(obs_path, np.stack(self.observations))` — likewise;
* `self.actions.clear()`, `self.observations.clear()`.
-/
def save {A O : Type} (dirFiles : ℕ) (actions : List A)
    (observations : List O) : SaveResult A O :=
  let num := dirFiles / 2
  match npStack actions with
  | .error _ => ⟨dirFiles, 0, none, true, actions, observations⟩
  | .ok _ =>
    match npStack observations with
    | .error _ => ⟨dirFiles + 1, 1, none, true, actions, observations⟩
    | .ok _ => ⟨dirFiles + 2, 2, some num, false, [], []⟩

end Saver

/-! ## Example configuration (`src/push2d/variants.py`, `RedAndGreen`) -/

namespace RedAndGreen

/-- Constant `RedAndGreen.SPACE`: 300×225, 60 fps, black background. -/
def SPACE : SpaceParameters := ⟨300, 225, 60, Color.black⟩

/-- Constant `RedAndGreen.AGENT`: radius 20 at (150, 110), blue, speed 110. -/
def AGENT : CircleParameters := ⟨20, ⟨150, 110⟩, ⟨0, 0, 255, 255⟩, 110⟩

/-- Constant `RedAndGreen.RED`: radius 30 at (50, 50), red. -/
def RED : CircleParameters := ⟨30, ⟨50, 50⟩, Color.red, 0⟩

/-- Constant `RedAndGreen.GREEN`: radius 30 at (250, 175), green. -/
def GREEN : CircleParameters := ⟨30, ⟨250, 175⟩, Color.green, 0⟩

/-- An info snapshot of the `RedAndGreen` situation as `_get_info` builds
it right after `reset`. -/
def info : Info := ⟨SPACE, AGENT, [RED, GREEN]⟩

/-- The same snapshot with every obstacle removed. -/
def infoNoObstacles : Info := ⟨SPACE, AGENT, []⟩

end RedAndGreen

/-! ## Helper lemmas -/

namespace AbstractRedAndGreenRewardFactory

theorem accumulate_cases (c1 c2 : Bool) :
    accumulate c1 c2 = 0 ∨ accumulate c1 c2 = 1/2 ∨ accumulate c1 c2 = 1 := by
  cases c1 <;> cases c2 <;> norm_num [accumulate]

theorem accumulate_eq_if_sum (c1 c2 : Bool) :
    accumulate c1 c2
      = (if c1 then (1 : ℚ)/2 else 0) + (if c2 then (1 : ℚ)/2 else 0) := by
  cases c1 <;> cases c2 <;> norm_num [accumulate]

theorem firstObstacle_ok (obstacles : List CircleParameters)
    (h : obstacles ≠ []) : ∃ c, firstObstacle obstacles = .ok c := by
  cases obstacles with
  | nil => exact absurd rfl h
  | cons o rest => exact ⟨o, rfl⟩

theorem get_red_circle_ok (info : Info) (h : info.obstacles ≠ []) :
    ∃ c, get_red_circle info = .ok c := by
  unfold get_red_circle
  cases hf : findByColor Color.red info.obstacles with
  | some o => exact ⟨o, rfl⟩
  | none => exact firstObstacle_ok info.obstacles h

theorem get_green_circle_ok (info : Info) (h : info.obstacles ≠ []) :
    ∃ c, get_green_circle info = .ok c := by
  unfold get_green_circle
  cases hf : findByColor Color.green info.obstacles with
  | some o => exact ⟨o, rfl⟩
  | none => exact firstObstacle_ok info.obstacles h

end AbstractRedAndGreenRewardFactory

/-! ## Claim theorems -/

open AbstractRedAndGreenRewardFactory

/-- C3: for any info snapshot with at least one obstacle (the only snapshots
a configured environment can produce), `get_reward` of every red/green
reward variant succeeds and returns a value in `{0.0, 0.5, 1.0}` — it
starts from `0.0` and adds `0.5` for each of its two positional conditions
that holds. -/
theorem reward_mem_unit_set (v : RewardVariant) (info : Info)
    (h : info.obstacles ≠ []) :
    ∃ (rc gc : CircleParameters) (r : ℚ),
      get_red_circle info = .ok rc ∧ get_green_circle info = .ok gc ∧
      v.get_reward info = .ok r ∧
      r = (if v.redCond rc info.space then (1 : ℚ)/2 else 0)
          + (if v.greenCond gc info.space then (1 : ℚ)/2 else 0) ∧
      (r = 0 ∨ r = 1/2 ∨ r = 1) := by
  obtain ⟨rc, hrc⟩ := get_red_circle_ok info h
  obtain ⟨gc, hgc⟩ := get_green_circle_ok info h
  refine ⟨rc, gc, accumulate (v.redCond rc info.space) (v.greenCond gc info.space),
    hrc, hgc, ?_, accumulate_eq_if_sum _ _, accumulate_cases _ _⟩
  simp [RewardVariant.get_reward, hrc, hgc, Bind.bind, Except.bind]

/-- C3 witness: the `RedAndGreen` snapshot with the
`TopRightRedTopLeftGreen` factory. -/
theorem reward_mem_unit_set_witness :
    RedAndGreen.info.obstacles ≠ [] ∧
      (∃ (rc gc : CircleParameters) (r : ℚ),
        get_red_circle RedAndGreen.info = .ok rc ∧
        get_green_circle RedAndGreen.info = .ok gc ∧
        RewardVariant.topRightRedTopLeftGreen.get_reward RedAndGreen.info = .ok r ∧
        r = (if RewardVariant.topRightRedTopLeftGreen.redCond rc RedAndGreen.info.space
              then (1 : ℚ)/2 else 0)
            + (if RewardVariant.topRightRedTopLeftGreen.greenCond gc RedAndGreen.info.space
              then (1 : ℚ)/2 else 0) ∧
        (r = 0 ∨ r = 1/2 ∨ r = 1)) :=
  ⟨by decide, reward_mem_unit_set RewardVariant.topRightRedTopLeftGreen
    RedAndGreen.info (by decide)⟩

/-- C4: with the class margin 30, a circle centered at
`(radius + 30 - 1, radius + 30 - 1)` is classified top-left (both the top
test `y < radius + margin` and the left test `x < radius + margin` hold),
while a circle centered at `(radius + 30 + 1, radius + 30 + 1)` is not. -/
theorem boundary_top_left_classification (r : ℚ) (col : Color) (vel : ℚ)
    (sp : SpaceParameters) :
    circle_is_top ⟨r, ⟨r + 30 - 1, r + 30 - 1⟩, col, vel⟩ sp = true ∧
    circle_is_left ⟨r, ⟨r + 30 - 1, r + 30 - 1⟩, col, vel⟩ sp = true ∧
    circle_is_top_left ⟨r, ⟨r + 30 - 1, r + 30 - 1⟩, col, vel⟩ sp = true ∧
    circle_is_top_left ⟨r, ⟨r + 30 + 1, r + 30 + 1⟩, col, vel⟩ sp = false := by
  refine ⟨?_, ?_, ?_, ?_⟩ <;>
    simp [circle_is_top_left, circle_is_top, circle_is_left, margin]

/-- C10: on an info snapshot whose obstacles list is empty, `get_reward` of
every red/green reward variant propagates the `IndexError` raised by the
color-fallback lookup `info["obstacles"][0]` instead of returning a reward. -/
theorem reward_empty_obstacles_index_error (v : RewardVariant) (info : Info)
    (h : info.obstacles = []) :
    v.get_reward info = .error .indexError := by
  simp [RewardVariant.get_reward, get_red_circle, h, findByColor, firstObstacle,
    Bind.bind, Except.bind]

/-- C10 witness: the `RedAndGreen` snapshot stripped of its obstacles. -/
theorem reward_empty_obstacles_index_error_witness :
    RewardVariant.bottomLeftRedBottomRightGreen.get_reward RedAndGreen.infoNoObstacles
      = .error .indexError :=
  reward_empty_obstacles_index_error RewardVariant.bottomLeftRedBottomRightGreen
    RedAndGreen.infoNoObstacles rfl

namespace Examples

/-- A concrete stand-in for the external solver: physics state is a counter. -/
def solveC : ℚ → ℕ → ℕ := fun _ p => p + 1

/-- A concrete stand-in for the external rasterizer. -/
def rasterC : ℕ → ℕ := fun p => 10 * p

/-- A concrete stand-in for `_get_info`. -/
def getInfoC : ℕ → Info := fun _ => RedAndGreen.info

/-- A concrete `Space` in the `RedAndGreen` configuration. -/
def spaceC : SpaceState ℕ ℕ := ⟨300, 225, 60, Color.black, 5, 0⟩

/-- A concrete environment state. -/
def envC : EnvState ℕ ℕ := ⟨spaceC, ⟨0, 0⟩, 110⟩

/-- The action with only the `up` flag set. -/
def actC : Act := ⟨1, 0, 0, 0⟩

/-- The 5-tuple `step` returns on `envC` and `actC`. -/
def outC : StepOut ℕ := ⟨50, 1, false, false, RedAndGreen.info⟩

end Examples

theorem step_fst_eq {P F : Type} (solve : ℚ → P → P) (raster : P → F)
    (getInfo : P → Info) (grf : Info → Except Err ℚ)
    (env : EnvState P F) (a : Act) :
    (step solve raster getInfo grf env a).1 =
      { space := env.space.render solve raster,
        controlVelocity := commandVelocity a env.agentVelocity,
        agentVelocity := env.agentVelocity } := by
  simp only [step]
  cases grf (getInfo ((env.space.render solve raster)).phys) <;> rfl

theorem step_snd_eq {P F : Type} (solve : ℚ → P → P) (raster : P → F)
    (getInfo : P → Info) (grf : Info → Except Err ℚ)
    (env : EnvState P F) (a : Act) :
    (step solve raster getInfo grf env a).2 =
      match grf (getInfo ((env.space.render solve raster)).phys) with
      | .error e => .error e
      | .ok reward =>
        .ok ⟨(env.space.render solve raster).screen, reward, false, false,
          getInfo ((env.space.render solve raster)).phys⟩ := by
  simp only [step]
  cases grf (getInfo ((env.space.render solve raster)).phys) <;> rfl

/-- C1: whenever `Push2D.step` returns its 5-tuple for a valid
four-binary-flag action, the returned `terminated` and `truncated` flags
are both `false` — episodes never end from inside `step`. -/
theorem step_terminated_truncated_false {P F : Type} (solve : ℚ → P → P)
    (raster : P → F) (getInfo : P → Info) (grf : Info → Except Err ℚ)
    (env : EnvState P F) (a : Act) (_ha : a.valid) (out : StepOut F)
    (h : (step solve raster getInfo grf env a).2 = .ok out) :
    out.terminated = false ∧ out.truncated = false := by
  rw [step_snd_eq] at h
  split at h
  · simp at h
  · simp only [Except.ok.injEq] at h
    subst h
    exact ⟨rfl, rfl⟩

/-- C1 witness: a concrete step with the default reward factory. -/
theorem step_terminated_truncated_false_witness :
    Examples.actC.valid ∧
      (step Examples.solveC Examples.rasterC Examples.getInfoC
          AbstractRewardFactory.get_reward Examples.envC Examples.actC).2
        = .ok Examples.outC ∧
      (Examples.outC.terminated = false ∧ Examples.outC.truncated = false) :=
  ⟨by decide, rfl,
    step_terminated_truncated_false Examples.solveC Examples.rasterC
      Examples.getInfoC AbstractRewardFactory.get_reward Examples.envC
      Examples.actC (by decide) Examples.outC rfl⟩

/-- C2: a tick first rasterizes all shapes into the framebuffer and only
afterwards advances the solver by the fixed timestep `1 / fps`; hence the
observation read after a tick by `step()` / `reset()` reflects the body
positions from before the solver advance of that tick. -/
theorem render_rasterizes_before_solving {P F : Type} (solve : ℚ → P → P)
    (raster : P → F) (s : SpaceState P F) (getInfo : P → Info)
    (grf : Info → Except Err ℚ) (env : EnvState P F) (a : Act) (rebuilt : P)
    (out : StepOut F)
    (h : (step solve raster getInfo grf env a).2 = .ok out) :
    (s.render solve raster).screen = raster s.phys ∧
    (s.render solve raster).phys = solve (1 / s.fps) s.phys ∧
    (step solve raster getInfo grf env a).1.space.screen = raster env.space.phys ∧
    out.observation = raster env.space.phys ∧
    (reset solve raster getInfo rebuilt env).2.1 = raster rebuilt := by
  refine ⟨rfl, rfl, ?_, ?_, rfl⟩
  · rw [step_fst_eq]
    rfl
  · rw [step_snd_eq] at h
    split at h
    · simp at h
    · simp only [Except.ok.injEq] at h
      subst h
      rfl

/-- C2 witness: the concrete step of `Examples`, whose observation equals
the rasterization of the pre-tick physics state. -/
theorem render_rasterizes_before_solving_witness :
    Examples.outC.observation = Examples.rasterC Examples.envC.space.phys :=
  (render_rasterizes_before_solving Examples.solveC Examples.rasterC
    Examples.spaceC Examples.getInfoC AbstractRewardFactory.get_reward
    Examples.envC Examples.actC 0 Examples.outC rfl).2.2.2.1

theorem npDot_directions (a : Act) :
    npDot a.toList directions = [a.right - a.left, a.down - a.up] := by
  simp only [npDot, directions, Act.toList, List.zip_cons_cons, List.zip_nil_right,
    List.foldl_cons, List.foldl_nil, List.map_cons, List.map_nil,
    List.zipWith_cons_cons, List.zipWith_nil_right]
  norm_num
  constructor <;> ring

theorem commandVelocity_eq (a : Act) (speed : ℚ) :
    commandVelocity a speed =
      ⟨((a.right - a.left : ℤ) : ℚ) * speed, ((a.down - a.up : ℤ) : ℚ) * speed⟩ := by
  unfold commandVelocity
  rw [npDot_directions]
  rfl

/-- C5: for every four-binary-flag action, `step` decodes it through the
fixed direction table `[[0, -1], [0, 1], [-1, 0], [1, 0]]` and sets the
agent control body velocity to `(right - left, down - up)` scaled by the
configured agent speed; a single set flag commands a unit cardinal
direction times the speed. -/
theorem step_decodes_direction_table {P F : Type} (solve : ℚ → P → P)
    (raster : P → F) (getInfo : P → Info) (grf : Info → Except Err ℚ)
    (env : EnvState P F) (a : Act) (_ha : a.valid) :
    (step solve raster getInfo grf env a).1.controlVelocity =
      ⟨((a.right - a.left : ℤ) : ℚ) * env.agentVelocity,
       ((a.down - a.up : ℤ) : ℚ) * env.agentVelocity⟩ ∧
    commandVelocity ⟨1, 0, 0, 0⟩ env.agentVelocity = ⟨0, -env.agentVelocity⟩ ∧
    commandVelocity ⟨0, 1, 0, 0⟩ env.agentVelocity = ⟨0, env.agentVelocity⟩ ∧
    commandVelocity ⟨0, 0, 1, 0⟩ env.agentVelocity = ⟨-env.agentVelocity, 0⟩ ∧
    commandVelocity ⟨0, 0, 0, 1⟩ env.agentVelocity = ⟨env.agentVelocity, 0⟩ := by
  have hstep : (step solve raster getInfo grf env a).1.controlVelocity
      = commandVelocity a env.agentVelocity := by
    rw [step_fst_eq]
  refine ⟨?_, ?_, ?_, ?_, ?_⟩ <;>
    norm_num [hstep, commandVelocity_eq, Vec2.mk.injEq]

/-- C5 witness: the up-flag action on the concrete environment. -/
theorem step_decodes_direction_table_witness :
    Examples.actC.valid ∧
      (step Examples.solveC Examples.rasterC Examples.getInfoC
          AbstractRewardFactory.get_reward Examples.envC Examples.actC).1.controlVelocity
        = ⟨((Examples.actC.right - Examples.actC.left : ℤ) : ℚ) * Examples.envC.agentVelocity,
           ((Examples.actC.down - Examples.actC.up : ℤ) : ℚ) * Examples.envC.agentVelocity⟩ :=
  ⟨by decide,
    (step_decodes_direction_table Examples.solveC Examples.rasterC
      Examples.getInfoC AbstractRewardFactory.get_reward Examples.envC
      Examples.actC (by decide)).1⟩

theorem filter_not_mem_self {α : Type} [DecidableEq α] (l : List α) :
    l.filter (fun b => decide (b ∉ l)) = [] := by
  rw [List.filter_eq_nil_iff]
  intro a ha
  simp [ha]

/-- Decidable reading of "no dangling constraint": every constraint still
tracked by the space references only bodies still tracked by the space. -/
def PhysSpace.noDangling (s : PhysSpace) : Bool :=
  s.constraints.all (fun c => s.bodies.contains c.bodyA && s.bodies.contains c.bodyB)

/-- C6: `clear()` removes every body, constraint and shape tracked by the
space, leaving no dangling constraint; it succeeds on any space, and it is
idempotent — a second `clear()` on the already-empty space succeeds again
and leaves the empty space, which any tick can still process. -/
theorem clear_exhaustive_and_idempotent (s : PhysSpace) :
    s.clear = .ok PhysSpace.empty ∧
    PhysSpace.empty.clear = .ok PhysSpace.empty ∧
    PhysSpace.noDangling PhysSpace.empty = true ∧
    (∀ (F : Type) (solve : ℚ → PhysSpace → PhysSpace) (raster : PhysSpace → F)
       (w h fps : ℚ) (col : Color) (scr : F),
       (SpaceState.render solve raster ⟨w, h, fps, col, PhysSpace.empty, scr⟩).phys
         = solve (1 / fps) PhysSpace.empty) := by
  refine ⟨?_, rfl, rfl, fun F solve raster w h fps col scr => rfl⟩
  have hb : s.removeBodies s.bodies = .ok { s with bodies := [] } := by
    simp [PhysSpace.removeBodies, List.all_eq_true, filter_not_mem_self]
  have hc : PhysSpace.removeConstraints { s with bodies := [] }
      { s with bodies := [] }.constraints
      = .ok { s with bodies := [], constraints := [] } := by
    simp [PhysSpace.removeConstraints, List.all_eq_true, filter_not_mem_self]
  have hs : PhysSpace.removeShapes { s with bodies := [], constraints := [] }
      { s with bodies := [], constraints := [] }.shapes
      = .ok { s with bodies := [], constraints := [], shapes := [] } := by
    simp [PhysSpace.removeShapes, List.all_eq_true, filter_not_mem_self]
  simp [PhysSpace.clear, hb, hc, hs, Bind.bind, Except.bind, PhysSpace.empty]

/-- C7: for an action sequence recorded at `save_fps` against physics at
`physics_fps`, replay applies each action for exactly
`span = physics_fps // save_fps` consecutive solver ticks — the per-action
tick trace is `span` copies of that action, the full-rate trace is the
concatenation of those blocks — and the `physics_fps % save_fps` residual
ticks of a non-exact ratio are dropped, never executed. -/
theorem replay_span_ticks (physics_fps save_fps : ℕ) (actions : List Vec2)
    (h : 0 < save_fps) :
    (∀ a, Simulator.replay physics_fps save_fps a
      = List.replicate (physics_fps / save_fps) a) ∧
    Simulator.replaySeq physics_fps save_fps actions
      = (actions.map (List.replicate (physics_fps / save_fps))).flatten ∧
    (Simulator.replaySeq physics_fps save_fps actions).length
      = actions.length * (physics_fps / save_fps) ∧
    (physics_fps / save_fps) * save_fps + physics_fps % save_fps = physics_fps ∧
    physics_fps % save_fps < save_fps := by
  have hrep : ∀ a : Vec2, Simulator.replay physics_fps save_fps a
      = List.replicate (physics_fps / save_fps) a := by
    intro a
    simp [Simulator.replay, List.map_const]
  refine ⟨hrep, ?_, ?_, ?_, ?_⟩
  · simp only [Simulator.replaySeq]
    congr 1
    exact List.map_congr_left (fun a _ => hrep a)
  · induction actions with
    | nil => simp [Simulator.replaySeq]
    | cons a t ih =>
      simp only [Simulator.replaySeq, List.map_cons, List.flatten_cons,
        List.length_append, hrep, List.length_replicate, List.length_cons] at ih ⊢
      rw [ih]
      ring
  · rw [Nat.mul_comm]
    exact Nat.div_add_mod physics_fps save_fps
  · exact Nat.mod_lt physics_fps h

/-- C7 witness: physics at 60 fps, capture at 25 fps — a non-exact ratio
with span 2 and 10 residual ticks per second dropped. -/
theorem replay_span_ticks_witness :
    0 < 25 ∧
      (Simulator.replaySeq 60 25 [⟨1, 2⟩, ⟨3, 4⟩]).length = 2 * (60 / 25) :=
  ⟨by decide,
    (replay_span_ticks 60 25 [⟨1, 2⟩, ⟨3, 4⟩] (by decide)).2.2.1⟩

/-- C8: a capture save into a directory already holding `k` persisted files
writes under index `k / 2`, afterwards the directory holds `k + 2` files,
and three sequential saves into an empty directory use indices 0, 1, 2 —
the index is recomputed from the existing-file count on every save, so it
survives process restarts. -/
theorem save_index_floor_half {A O : Type} (k : ℕ) (actions : List A)
    (observations : List O) (ha : actions ≠ []) (ho : observations ≠ []) :
    (Saver.save k actions observations).savedIndex = some (k / 2) ∧
    (Saver.save k actions observations).dirFiles = k + 2 ∧
    (Saver.save k actions observations).raised = false ∧
    (Saver.save 0 actions observations).savedIndex = some 0 ∧
    (Saver.save (Saver.save 0 actions observations).dirFiles
      actions observations).savedIndex = some 1 ∧
    (Saver.save (Saver.save (Saver.save 0 actions observations).dirFiles
      actions observations).dirFiles actions observations).savedIndex = some 2 := by
  obtain ⟨x, xs, rfl⟩ := List.exists_cons_of_ne_nil ha
  obtain ⟨y, ys, rfl⟩ := List.exists_cons_of_ne_nil ho
  simp [Saver.save, Saver.npStack]

/-- C8 witness: one-sample buffers saved into a directory holding 4 files. -/
theorem save_index_floor_half_witness :
    ([0] : List ℕ) ≠ [] ∧ ([1] : List ℕ) ≠ [] ∧
      (Saver.save 4 [0] [1]).savedIndex = some (4 / 2) :=
  ⟨by decide, by decide, (save_index_floor_half 4 [0] [1] (by decide) (by decide)).1⟩

/-- C9 counterexample: calling `save()` with zero samples in the buffers is
not a silent no-op — `np.stack` on the empty action buffer raises, so the
call does not return without error. -/
theorem save_empty_not_silent :
    ¬ ((Saver.save 0 ([] : List ℕ) ([] : List ℕ)).filesWritten = 0 ∧
       (Saver.save 0 ([] : List ℕ) ([] : List ℕ)).raised = false) := by
  decide

/-- C9 amended: calling `save()` with zero buffered samples persists no
file and leaves the buffers untouched, but raises a `ValueError` (from
`np.stack` on an empty sequence) instead of returning silently. -/
theorem save_empty_raises {A O : Type} (k : ℕ) :
    Saver.save k ([] : List A) ([] : List O)
      = ⟨k, 0, none, true, [], []⟩ :=
  rfl

end Push2D
